import Mathlib

/-!
Verification development for the route-synthesis and air-quality pipeline
(files fnl_agnt/osm_route_tools.py, fnl_agnt/air_quality_tools.py,
fnl_agnt/destination_tools_osm.py).

Modelling conventions:
* Python floats are modelled as exact rationals.  The decimal rounding
  idiom round(x, k) is modelled by rounding x * 10^k to the nearest
  integer with ties to even, matching the Python builtin.
* The geodesic distance of the geopy library is an external collaborator,
  not repository code; every embedded function that calls it takes an
  arbitrary distance function d as an explicit parameter, so theorems
  quantify over every possible geodesic behaviour.
* Python dictionaries holding heterogeneous sensor payloads are modelled
  by structures; a missing key is modelled by an Option or by an explicit
  constructor of the PyVal type where the source depends on it.
-/

/-- Round a rational to the nearest integer, ties to even, as the Python
builtin round does. -/
def roundHalfEven (q : ℚ) : ℤ :=
  let f : ℤ := ⌊q⌋
  let r : ℚ := q - f
  if r < 1/2 then f
  else if 1/2 < r then f + 1
  else if f % 2 = 0 then f else f + 1

/-- Model of Python round(x, k): round to k decimal places. -/
def roundTo (k : ℕ) (q : ℚ) : ℚ :=
  (roundHalfEven (q * (10 : ℚ) ^ k) : ℚ) / (10 : ℚ) ^ k

theorem roundHalfEven_nonneg {q : ℚ} (h : 0 ≤ q) : 0 ≤ roundHalfEven q := by
  unfold roundHalfEven
  have hf : (0 : ℤ) ≤ ⌊q⌋ := Int.floor_nonneg.mpr h
  dsimp only
  split
  · exact hf
  · split
    · omega
    · split
      · exact hf
      · omega

theorem roundHalfEven_le {q : ℚ} {N : ℤ} (h : q ≤ (N : ℚ)) : roundHalfEven q ≤ N := by
  unfold roundHalfEven
  have hf : ⌊q⌋ ≤ N := Int.floor_le_floor h |>.trans_eq (Int.floor_intCast N)
  dsimp only
  split
  · exact hf
  · rename_i h1
    have hr : (1/2 : ℚ) ≤ q - ⌊q⌋ := not_lt.mp h1
    have hne : ⌊q⌋ ≠ N := by
      intro he
      rw [he] at hr
      have : q - N ≤ 0 := by linarith
      linarith
    split
    · omega
    · split
      · exact hf
      · omega

theorem roundTo_nonneg {k : ℕ} {q : ℚ} (h : 0 ≤ q) : 0 ≤ roundTo k q := by
  unfold roundTo
  have h10 : (0 : ℚ) < (10 : ℚ) ^ k := by positivity
  have := roundHalfEven_nonneg (q := q * (10 : ℚ) ^ k) (by positivity)
  have hnum : (0 : ℚ) ≤ (roundHalfEven (q * (10 : ℚ) ^ k) : ℚ) := by exact_mod_cast this
  exact div_nonneg hnum (le_of_lt h10)

theorem roundTo_le_nat {k : ℕ} {q : ℚ} {N : ℕ} (h : q ≤ (N : ℚ)) : roundTo k q ≤ (N : ℚ) := by
  unfold roundTo
  have h10 : (0 : ℚ) < (10 : ℚ) ^ k := by positivity
  have hq : q * (10 : ℚ) ^ k ≤ ((N * 10 ^ k : ℤ) : ℚ) := by
    push_cast
    exact mul_le_mul_of_nonneg_right h (le_of_lt h10)
  have := roundHalfEven_le hq
  have hnum : (roundHalfEven (q * (10 : ℚ) ^ k) : ℚ) ≤ (N : ℚ) * (10 : ℚ) ^ k := by
    calc (roundHalfEven (q * (10 : ℚ) ^ k) : ℚ) ≤ ((N * 10 ^ k : ℤ) : ℚ) := by exact_mod_cast this
    _ = (N : ℚ) * (10 : ℚ) ^ k := by push_cast; ring
  rw [div_le_iff₀ h10]
  exact hnum

/-- A metric value stored in the sensor metrics dictionary.  num is a
numeric reading, null the JSON null, truthyNonNum a truthy non-numeric
value (for instance a non-empty string), falsyNonNum a falsy non-numeric
value (for instance an empty string), absent a missing key. -/
inductive PyVal where
  | num (q : ℚ)
  | null
  | truthyNonNum
  | falsyNonNum
  | absent
deriving DecidableEq

/-- Effect of the source idiom metrics.get(key, 0) or 0 on one metric
value: a missing key defaults to 0, falsy values (null, 0, falsy
non-numerics) are replaced by 0, a truthy non-numeric survives and makes
the later multiplication raise, modelled as none. -/
def pyGetOr0 : PyVal → Option ℚ
  | .num q => some (if q = 0 then 0 else q)
  | .null => some 0
  | .truthyNonNum => none
  | .falsyNonNum => some 0
  | .absent => some 0

/-- Embedding of calculate_air_quality_score
(air_quality_tools.py lines 96-111).  The two arguments are the values of
the massPM2_5Avg and massPM10_0Avg keys; the try/except that yields 50
on a type error is the none branch of pyGetOr0. -/
def calculate_air_quality_score (pm25v pm10v : PyVal) : ℚ :=
  match pyGetOr0 pm25v, pyGetOr0 pm10v with
  | some pm25, some pm10 =>
    let pm25_score := max 0 (100 - pm25 * 2)
    let pm10_score := max 0 (100 - pm10 * 0.5)
    let overall_score := pm25_score * 0.7 + pm10_score * 0.3
    roundTo 2 (max 0 (min 100 overall_score))
  | _, _ => 50

/-- Embedding of get_quality_level (air_quality_tools.py lines 144-153). -/
def get_quality_level (score : ℚ) : String :=
  if score ≥ 80 then "🟢 Excelente"
  else if score ≥ 60 then "🟡 Buena"
  else if score ≥ 40 then "🟠 Moderada"
  else "🔴 Mala"

/-- Embedding of generate_air_quality_recommendation
(osm_route_tools.py lines 235-244). -/
def generate_air_quality_recommendation (score : ℚ) : String :=
  if score ≥ 80 then "✅ Calidad del aire excelente. Ideal para actividades al aire libre."
  else if score ≥ 60 then "⚠️ Calidad del aire buena. Puede realizar su viaje normalmente."
  else if score ≥ 40 then "🔶 Calidad moderada. Personas sensibles deben considerar precauciones."
  else "🔴 Calidad del aire mala. Use mascarilla y evite actividades intensas."

/-- A route coordinate entry as built by get_osm_route_with_air_quality
(osm_route_tools.py lines 40-48): latitude, longitude and the OSM graph
node identifier. -/
structure Coord where
  lat : ℚ
  lng : ℚ
  node_id : ℤ
deriving DecidableEq

instance : Inhabited Coord := ⟨⟨0, 0, 0⟩⟩

/-- A sensor record of the nodes_with_air_quality list produced by
get_air_quality_for_all_nodes (air_quality_tools.py lines 113-139); only
the keys read by the route tools are modelled. -/
structure SensorNode where
  nombre : String
  lat : ℚ
  lng : ℚ
  air_quality_score : ℚ
deriving DecidableEq

/-- The air-quality snapshot dictionary consumed by the route tools:
the success flag and the nodes_with_air_quality list.  A snapshot whose
fetch failed has success = false (the source then carries an error string
instead of nodes; the string is irrelevant to the consumers). -/
structure AQData where
  success : Bool
  nodes_with_air_quality : List SensorNode
deriving DecidableEq

/-- A destination record of the matches list used by
find_nearest_destination (destination_tools_osm.py lines 285-322); only
the keys read by the scan are modelled. -/
structure Destination where
  nombre : String
  lat : ℚ
  lng : ℚ
deriving DecidableEq

/-- The generic linear scan shared verbatim by
find_nearest_air_quality_node (osm_route_tools.py lines 246-260) and
find_nearest_destination (destination_tools_osm.py lines 298-308): the
accumulator holds the current nearest candidate with its distance, and a
candidate replaces it exactly when its distance is strictly below the
minimum so far and within the radius.  dist c is the geodesic distance
from the fixed query point to candidate c. -/
def nearestScanGo {α : Type} (dist : α → ℚ) (maxD : ℚ) :
    Option (α × ℚ) → List α → Option α
  | acc, [] => acc.map Prod.fst
  | acc, c :: rest =>
    let dc := dist c
    match acc with
    | none =>
      if dc ≤ maxD then nearestScanGo dist maxD (some (c, dc)) rest
      else nearestScanGo dist maxD none rest
    | some (b, m) =>
      if dc < m ∧ dc ≤ maxD then nearestScanGo dist maxD (some (c, dc)) rest
      else nearestScanGo dist maxD (some (b, m)) rest

/-- The scan started with no candidate, as both source functions do
(nearest = None, min_distance = float inf; any finite distance is below
the initial infinity, so only dc ≤ maxD matters on the first hit). -/
def nearestScan {α : Type} (dist : α → ℚ) (maxD : ℚ) (cands : List α) : Option α :=
  nearestScanGo dist maxD none cands

/-- Embedding of find_nearest_air_quality_node
(osm_route_tools.py lines 246-260); d is the geodesic distance on
(lat, lng) pairs and the source default radius is 3 km, passed explicitly
here. -/
def find_nearest_air_quality_node (d : ℚ × ℚ → ℚ × ℚ → ℚ) (lat lng : ℚ)
    (air_quality_nodes : List SensorNode) (max_distance_km : ℚ) : Option SensorNode :=
  nearestScan (fun node => d (lat, lng) (node.lat, node.lng)) max_distance_km air_quality_nodes

/-- Embedding of the scan of find_nearest_destination
(destination_tools_osm.py lines 298-308); the surrounding dictionary
plumbing (search call, success wrapper) is not needed by any claim.  The
source default radius is 10 km, passed explicitly here. -/
def find_nearest_destination (d : ℚ × ℚ → ℚ × ℚ → ℚ) (origin_lat origin_lng : ℚ)
    (dests : List Destination) (max_distance_km : ℚ) : Option Destination :=
  nearestScan (fun dest => d (origin_lat, origin_lng) (dest.lat, dest.lng)) max_distance_km dests

theorem nearestScanGo_some_spec {α : Type} (dist : α → ℚ) (maxD : ℚ) :
    ∀ (l : List α) (b : α), dist b ≤ maxD →
      ∃ c, nearestScanGo dist maxD (some (b, dist b)) l = some c ∧
        c ∈ b :: l ∧ dist c ≤ maxD ∧ (∀ e ∈ b :: l, dist c ≤ dist e) ∧
        (b :: l).find? (fun e => decide (dist e ≤ dist c)) = some c := by
  intro l
  induction l with
  | nil =>
    intro b hb
    refine ⟨b, rfl, List.mem_singleton.mpr rfl, hb, ?_, ?_⟩
    · intro e he
      rw [List.mem_singleton] at he
      subst he
      exact le_refl _
    · rw [List.find?_cons_of_pos _ (by simp)]
  | cons x rest ih =>
    intro b hb
    by_cases hx : dist x < dist b ∧ dist x ≤ maxD
    · obtain ⟨c, hgo, hmem, hcd, hmin, hfind⟩ := ih x hx.2
      refine ⟨c, ?_, ?_, hcd, ?_, ?_⟩
      · simpa [nearestScanGo, hx] using hgo
      · rcases List.mem_cons.mp hmem with h | h
        · exact h ▸ List.mem_cons_of_mem _ (List.mem_cons_self _ _)
        · exact List.mem_cons_of_mem _ (List.mem_cons_of_mem _ h)
      · intro e he
        rcases List.mem_cons.mp he with h | h
        · subst h
          have hcx : dist c ≤ dist x := hmin x (List.mem_cons_self _ _)
          linarith [hx.1]
        · exact hmin e h
      · have hpb : decide (dist b ≤ dist c) = false := by
          have hcx : dist c ≤ dist x := hmin x (List.mem_cons_self _ _)
          simp only [decide_eq_false_iff_not, not_le]
          linarith [hx.1]
        rw [List.find?_cons_of_neg _ (by simp [hpb]), hfind]
    · obtain ⟨c, hgo, hmem, hcd, hmin, hfind⟩ := ih b hb
      have hcx : dist c ≤ dist x := by
        rcases not_and_or.mp hx with h | h
        · have hbx : dist b ≤ dist x := not_lt.mp h
          exact (hmin b (List.mem_cons_self _ _)).trans hbx
        · have := not_le.mp h
          linarith
      refine ⟨c, ?_, ?_, hcd, ?_, ?_⟩
      · simpa [nearestScanGo, hx] using hgo
      · rcases List.mem_cons.mp hmem with h | h
        · exact h ▸ List.mem_cons_self _ _
        · exact List.mem_cons_of_mem _ (List.mem_cons_of_mem _ h)
      · intro e he
        rcases List.mem_cons.mp he with h | h
        · exact h ▸ hmin b (List.mem_cons_self _ _)
        · rcases List.mem_cons.mp h with h' | h'
          · exact h' ▸ hcx
          · exact hmin e (List.mem_cons_of_mem _ h')
      · by_cases hpb : dist b ≤ dist c
        · have : (b :: rest).find? (fun e => decide (dist e ≤ dist c)) = some b :=
            List.find?_cons_of_pos _ (by simp [hpb])
          have hbc : b = c := by
            rw [this] at hfind
            exact Option.some.inj hfind
          subst hbc
          exact List.find?_cons_of_pos _ (by simp [hpb])
        · have hfr : rest.find? (fun e => decide (dist e ≤ dist c)) = some c := by
            rw [List.find?_cons_of_neg _ (by simp [hpb])] at hfind
            exact hfind
          have hpx : ¬ dist x ≤ dist c := by
            rcases not_and_or.mp hx with h | h
            · have hbx : dist b ≤ dist x := not_lt.mp h
              intro hxc
              exact hpb (hbx.trans hxc)
            · have := not_le.mp h
              intro hxc
              linarith
          rw [List.find?_cons_of_neg _ (by simp [hpb]),
              List.find?_cons_of_neg _ (by simp [hpx]), hfr]

theorem nearestScan_spec {α : Type} (dist : α → ℚ) (maxD : ℚ) :
    ∀ l : List α,
      (nearestScan dist maxD l = none ↔ ∀ e ∈ l, ¬ dist e ≤ maxD) ∧
      (∀ c, nearestScan dist maxD l = some c →
        c ∈ l ∧ dist c ≤ maxD ∧ (∀ e ∈ l, dist c ≤ dist e) ∧
        l.find? (fun e => decide (dist e ≤ dist c)) = some c) := by
  intro l
  induction l with
  | nil =>
    constructor
    · simp [nearestScan, nearestScanGo]
    · intro c hc
      simp [nearestScan, nearestScanGo] at hc
  | cons c0 rest ih =>
    by_cases h0 : dist c0 ≤ maxD
    · obtain ⟨c, hgo, hmem, hcd, hmin, hfind⟩ := nearestScanGo_some_spec dist maxD rest c0 h0
      have hres : nearestScan dist maxD (c0 :: rest) = some c := by
        simpa [nearestScan, nearestScanGo, h0] using hgo
      constructor
      · rw [hres]
        constructor
        · intro h
          exact absurd h (by simp)
        · intro h
          exact absurd h0 (h c0 (List.mem_cons_self _ _))
      · intro c' hc'
        rw [hres] at hc'
        obtain rfl := Option.some.inj hc'
        exact ⟨hmem, hcd, hmin, hfind⟩
    · have hres : nearestScan dist maxD (c0 :: rest) = nearestScan dist maxD rest := by
        simp [nearestScan, nearestScanGo, h0]
      constructor
      · rw [hres, ih.1]
        constructor
        · intro h e he
          rcases List.mem_cons.mp he with h' | h'
          · exact h' ▸ h0
          · exact h e h'
        · intro h e he
          exact h e (List.mem_cons_of_mem _ he)
      · intro c hc
        rw [hres] at hc
        obtain ⟨hmem, hcd, hmin, hfind⟩ := ih.2 c hc
        refine ⟨List.mem_cons_of_mem _ hmem, hcd, ?_, ?_⟩
        · intro e he
          rcases List.mem_cons.mp he with h' | h'
          · subst h'
            linarith [not_le.mp h0]
          · exact hmin e h'
        · have hp0 : ¬ dist c0 ≤ dist c := by
            intro hcc
            exact h0 (le_trans hcc hcd)
          rw [List.find?_cons_of_neg _ (by simp [hp0]), hfind]

/-- Embedding of evaluate_point_air_quality
(osm_route_tools.py lines 262-280): the per-point air-quality record
attached to each step.  The optional fields model the keys that the
source adds only in the successful-join branch. -/
structure AirEval where
  score : ℚ
  level : String
  nearest_sensor : Option String
  sensor_distance_km : Option ℚ
deriving DecidableEq

/-- Embedding of evaluate_point_air_quality
(osm_route_tools.py lines 262-280). -/
def evaluate_point_air_quality (d : ℚ × ℚ → ℚ × ℚ → ℚ) (point : Coord)
    (air_quality_data : AQData) : AirEval :=
  if air_quality_data.success = false then ⟨50, "🔵 Sin datos", none, none⟩
  else
    match find_nearest_air_quality_node d point.lat point.lng
        air_quality_data.nodes_with_air_quality 3 with
    | some nearest =>
      ⟨nearest.air_quality_score, get_quality_level nearest.air_quality_score,
        some nearest.nombre,
        some (roundTo 2 (d (point.lat, point.lng) (nearest.lat, nearest.lng)))⟩
    | none => ⟨50, "🔵 Sin datos cercanos", none, none⟩

/-- Embedding of get_osm_speed_kmh (osm_route_tools.py lines 283-285). -/
def get_osm_speed_kmh (mode : String) : ℚ :=
  if mode = "drive" then 40
  else if mode = "walk" then 5
  else if mode = "bike" then 15
  else 20

/-- Embedding of calculate_osm_duration (osm_route_tools.py lines 287-288). -/
def calculate_osm_duration (distance_km : ℚ) (mode : String) : ℚ :=
  distance_km / get_osm_speed_kmh mode * 60

/-- Embedding of get_mode_display_name (osm_route_tools.py lines 308-310). -/
def get_mode_display_name (mode : String) : String :=
  if mode = "drive" then "vehículo"
  else if mode = "walk" then "caminando"
  else if mode = "bike" then "bicicleta"
  else mode

/-- Embedding of calculate_distance_along_route
(osm_route_tools.py lines 304-306), parametric in the geodesic function. -/
def calculate_distance_along_route (d : ℚ × ℚ → ℚ × ℚ → ℚ)
    (start_point current_point : Coord) : ℚ :=
  d (start_point.lat, start_point.lng) (current_point.lat, current_point.lng)

/-- Embedding of generate_segment_instruction
(osm_route_tools.py lines 162-173). -/
def generate_segment_instruction (_segment_idx : ℕ) (progress : ℚ) (mode : String) : String :=
  let mode_name := get_mode_display_name mode
  if progress < 0.3 then "⬆️ Continúe por la ruta principal en " ++ mode_name
  else if progress < 0.6 then "➡️ Manténgase en esta vía en " ++ mode_name
  else if progress < 0.9 then "↗️ Se acerca a su destino en " ++ mode_name
  else "🎯 Prepare su llegada al destino final"

/-- Embedding of get_segment_icon (osm_route_tools.py lines 175-178). -/
def get_segment_icon (segment_idx : ℕ) : String :=
  ["⬆️", "➡️", "↗️", "🔷", "🔶", "🚦", "🛣️", "🎯"].getD (segment_idx % 8) ""

/-- One step dictionary of the step-by-step instructions
(osm_route_tools.py lines 110-158 and 316-351). -/
structure Step where
  step_number : ℕ
  instruction : String
  coordinates : Coord
  distance_from_start_km : ℚ
  estimated_time_min : ℚ
  air_quality : AirEval
  icon : String
  type : String
deriving DecidableEq

/-- The start step appended at osm_route_tools.py lines 110-119. -/
def mkStartStep (d : ℚ × ℚ → ℚ × ℚ → ℚ) (route_coords : List Coord)
    (air_quality_data : AQData) : Step :=
  { step_number := 1
    instruction := "📍 Inicie su viaje desde el punto de origen"
    coordinates := route_coords.headD default
    distance_from_start_km := 0
    estimated_time_min := 0
    air_quality := evaluate_point_air_quality d (route_coords.headD default) air_quality_data
    icon := "📍"
    type := "start" }

/-- num_segments of osm_route_tools.py line 122: min(8, max(3, n // 10)). -/
def numSegments (n : ℕ) : ℕ := min 8 (max 3 (n / 10))

/-- The navigation step appended for segment boundary k at
osm_route_tools.py lines 125-146.  Its step_number is len(steps) + 1 at
append time; the list then holds the start step and the k - 1 earlier
navigation steps (the loop breaks before appending otherwise), so the
number is k + 1. -/
def mkNavStep (d : ℚ × ℚ → ℚ × ℚ → ℚ) (route_coords : List Coord)
    (air_quality_data : AQData) (mode : String) (k : ℕ) : Step :=
  let n := route_coords.length
  let segment_size := n / numSegments n
  let point_idx := k * segment_size
  let current_point := route_coords.getD point_idx default
  let distance_from_start := calculate_distance_along_route d (route_coords.headD default) current_point
  let progress : ℚ := (point_idx : ℚ) / (n : ℚ)
  { step_number := k + 1
    instruction := generate_segment_instruction k progress mode
    coordinates := current_point
    distance_from_start_km := roundTo 2 distance_from_start
    estimated_time_min := roundTo 1 (distance_from_start / get_osm_speed_kmh mode * 60)
    air_quality := evaluate_point_air_quality d current_point air_quality_data
    icon := get_segment_icon k
    type := "navigation" }

/-- The arrival step appended at osm_route_tools.py lines 149-158;
numNavs is the number of navigation steps already in the list. -/
def mkArrivalStep (d : ℚ × ℚ → ℚ × ℚ → ℚ) (route_coords : List Coord)
    (air_quality_data : AQData) (mode : String) (total_distance_km : ℚ)
    (numNavs : ℕ) : Step :=
  { step_number := numNavs + 2
    instruction := "🎯 Ha llegado a su destino"
    coordinates := route_coords.getLastD default
    distance_from_start_km := roundTo 2 total_distance_km
    estimated_time_min := roundTo 1 (total_distance_km / get_osm_speed_kmh mode * 60)
    air_quality := evaluate_point_air_quality d (route_coords.getLastD default) air_quality_data
    icon := "🎯"
    type := "arrival" }

/-- Embedding of generate_basic_steps (osm_route_tools.py lines 312-353),
the short-route branch of the synthesizer. -/
def generate_basic_steps (d : ℚ × ℚ → ℚ × ℚ → ℚ) (route_coords : List Coord)
    (air_quality_data : AQData) (mode : String) (total_distance_km : ℚ) : List Step :=
  let start : Step :=
    { step_number := 1
      instruction := "📍 Inicio del viaje"
      coordinates := route_coords.headD default
      distance_from_start_km := 0
      estimated_time_min := 0
      air_quality := evaluate_point_air_quality d (route_coords.headD default) air_quality_data
      icon := "📍"
      type := "start" }
  let mid : List Step :=
    if 2 < route_coords.length then
      let mid_point := route_coords.getD (route_coords.length / 2) default
      let mid_distance := calculate_distance_along_route d (route_coords.headD default) mid_point
      [{ step_number := 2
         instruction := "🎯 Continúe hacia su destino"
         coordinates := mid_point
         distance_from_start_km := roundTo 2 mid_distance
         estimated_time_min := roundTo 1 (mid_distance / get_osm_speed_kmh mode * 60)
         air_quality := evaluate_point_air_quality d mid_point air_quality_data
         icon := "🎯"
         type := "navigation" }]
    else []
  let steps := start :: mid
  steps ++ [{ step_number := steps.length + 1
              instruction := "✅ Ha llegado a su destino"
              coordinates := route_coords.getLastD default
              distance_from_start_km := roundTo 2 total_distance_km
              estimated_time_min := roundTo 1 (total_distance_km / get_osm_speed_kmh mode * 60)
              air_quality := evaluate_point_air_quality d (route_coords.getLastD default) air_quality_data
              icon := "✅"
              type := "arrival" }]

/-- Embedding of generate_detailed_route_steps
(osm_route_tools.py lines 99-160).  The loop over
range(1, num_segments) with its early break on point_idx >= n is the
takeWhile; on the empty coordinate list the source would raise an
IndexError while this embedding totalises with default values, so every
theorem below assumes a non-empty route. -/
def generate_detailed_route_steps (d : ℚ × ℚ → ℚ × ℚ → ℚ) (route_coords : List Coord)
    (air_quality_data : AQData) (mode : String) (total_distance_km : ℚ) : List Step :=
  if route_coords.length < 3 then
    generate_basic_steps d route_coords air_quality_data mode total_distance_km
  else
    let n := route_coords.length
    let num_segments := numSegments n
    let segment_size := n / num_segments
    let navs :=
      ((List.range' 1 (num_segments - 1)).takeWhile
        (fun k => decide (k * segment_size < n))).map
        (fun k => mkNavStep d route_coords air_quality_data mode k)
    mkStartStep d route_coords air_quality_data
      :: navs
      ++ [mkArrivalStep d route_coords air_quality_data mode total_distance_km navs.length]

/-- The sample index set of analyze_route_air_quality
(osm_route_tools.py line 199): Python range(0, n, max(1, n // 10)),
which has ceil(n / step) elements 0, step, 2 step, ... -/
def sampleIndices (n : ℕ) : List ℕ :=
  let step := max 1 (n / 10)
  List.range' 0 ((n + step - 1) / step) step

/-- The sampled points of analyze_route_air_quality
(osm_route_tools.py line 200): the list comprehension keeps indices below
the length and reads the coordinate there. -/
def samplePoints (route_coords : List Coord) : List Coord :=
  ((sampleIndices route_coords.length).filter
    (fun i => decide (i < route_coords.length))).filterMap
    (fun i => route_coords.get? i)

/-- Python min of a non-empty list (total here, 0 on the empty list that
the source never reaches thanks to its guard). -/
def listMin : List ℚ → ℚ
  | [] => 0
  | x :: xs => xs.foldl min x

/-- Python max of a non-empty list (total here, 0 on the empty list that
the source never reaches thanks to its guard). -/
def listMax : List ℚ → ℚ
  | [] => 0
  | x :: xs => xs.foldl max x

/-- One entry of the quality_points list built at
osm_route_tools.py lines 210-215. -/
structure QualityPoint where
  coordinates : Coord
  score : ℚ
  quality_level : String
  nearest_sensor : String
deriving DecidableEq

/-- Return shape of analyze_route_air_quality: the degraded dictionary
(osm_route_tools.py lines 183-187, 192-196 and 229-233) carries only the
average, the level and a message and has no samples_analyzed key; the
full summary (lines 219-227) carries the aggregate statistics. -/
inductive AnalysisResult where
  | degraded (average_air_quality_score : ℚ) (quality_level : String) (message : String)
  | summary (average_air_quality_score : ℚ) (quality_level : String)
      (samples_analyzed : ℕ) (min_score max_score : ℚ)
      (quality_points : List QualityPoint) (recommendation : String)
deriving DecidableEq

/-- Embedding of analyze_route_air_quality
(osm_route_tools.py lines 180-233). -/
def analyze_route_air_quality (d : ℚ × ℚ → ℚ × ℚ → ℚ) (route_coords : List Coord)
    (air_quality_data : AQData) : AnalysisResult :=
  if air_quality_data.success = false then
    .degraded 50 "🔵 Sin datos" "No hay datos disponibles de calidad del aire"
  else if air_quality_data.nodes_with_air_quality = [] then
    .degraded 50 "🔵 Sin datos" "No se encontraron sensores de calidad del aire"
  else
    let sample_points := samplePoints route_coords
    let joined := sample_points.filterMap (fun point =>
      (find_nearest_air_quality_node d point.lat point.lng
        air_quality_data.nodes_with_air_quality 3).map
        (fun nearest_node => (point, nearest_node)))
    let scores := joined.map (fun pr => pr.2.air_quality_score)
    let quality_points := joined.map (fun pr =>
      QualityPoint.mk pr.1 pr.2.air_quality_score
        (get_quality_level pr.2.air_quality_score) pr.2.nombre)
    if scores = [] then
      .degraded 50 "🔵 Desconocida" "No se pudieron obtener datos de calidad del aire en la ruta"
    else
      let avg_score := scores.sum / (scores.length : ℚ)
      .summary (roundTo 2 avg_score) (get_quality_level avg_score) scores.length
        (roundTo 2 (listMin scores)) (roundTo 2 (listMax scores))
        (quality_points.take 3) (generate_air_quality_recommendation avg_score)

/-- The route_summary sub-dictionary of the orchestrator response
(osm_route_tools.py lines 74-83); only scalar fields relevant to the
claims are modelled. -/
structure RouteSummary where
  total_distance_km : ℚ
  total_distance_m : ℚ
  estimated_duration_min : ℚ
  transport_mode : String
  nodes_in_route : ℕ
  coordinates_count : ℕ
deriving DecidableEq

/-- Return shape of get_osm_route_with_air_quality: on success the
structured response of osm_route_tools.py lines 71-94 (map_data and
timestamp are rendering metadata not modelled here); on failure the
two-key dictionary of line 97.  Keys that exist only in one of the two
shapes are Options, none modelling a missing key. -/
structure RouteResult where
  success : Bool
  error : Option String
  route_summary : Option RouteSummary
  step_by_step_instructions : List Step
  route_coordinates : List (ℚ × ℚ)
  air_quality_analysis : Option AnalysisResult
deriving DecidableEq

/-- Embedding of get_osm_route_with_air_quality
(osm_route_tools.py lines 19-97).  The external effects are abstracted
into inputs: pathResult is the outcome of the graph fetch, node snapping,
shortest-path search and edge-length summation (steps 1-5 of the source;
ok carries the route coordinates and the summed length in metres, error
carries the exception text of any raised failure), and snapshot is the
value returned by get_air_quality_for_all_nodes, which catches its own
exceptions and never raises.  The try/except of the source is the match:
a failed path phase produces the success=False dictionary of line 97. -/
def get_osm_route_with_air_quality (d : ℚ × ℚ → ℚ × ℚ → ℚ)
    (pathResult : Except String (List Coord × ℚ)) (snapshot : AQData)
    (mode : String) : RouteResult :=
  match pathResult with
  | .error e =>
    { success := false
      error := some ("Error en cálculo de ruta: " ++ e)
      route_summary := none
      step_by_step_instructions := []
      route_coordinates := []
      air_quality_analysis := none }
  | .ok (route_coords, route_length_m) =>
    let route_length_km := route_length_m / 1000
    { success := true
      error := none
      route_summary := some
        { total_distance_km := roundTo 2 route_length_km
          total_distance_m := roundTo 2 route_length_m
          estimated_duration_min := roundTo 1 (calculate_osm_duration route_length_km mode)
          transport_mode := get_mode_display_name mode
          nodes_in_route := route_coords.length
          coordinates_count := route_coords.length }
      step_by_step_instructions :=
        generate_detailed_route_steps d route_coords snapshot mode route_length_km
      route_coordinates := route_coords.map (fun coord => (coord.lat, coord.lng))
      air_quality_analysis := some (analyze_route_air_quality d route_coords snapshot) }

theorem three_le_numSegments (n : ℕ) : 3 ≤ numSegments n :=
  le_min (by norm_num) (le_max_left 3 _)

theorem numSegments_le_eight (n : ℕ) : numSegments n ≤ 8 := min_le_left _ _

theorem numSegments_le {n : ℕ} (h3 : 3 ≤ n) : numSegments n ≤ n :=
  le_trans (min_le_right 8 _) (max_le h3 (Nat.div_le_self n 10))

/-- Every segment boundary index visited by the loop of
generate_detailed_route_steps is a valid position, so the early break of
osm_route_tools.py lines 127-128 never fires. -/
theorem nav_index_lt {n k : ℕ} (h3 : 3 ≤ n) (hk : k < numSegments n) :
    k * (n / numSegments n) < n := by
  have hns3 : 3 ≤ numSegments n := three_le_numSegments n
  have hnsn : numSegments n ≤ n := numSegments_le h3
  have hsize1 : 1 ≤ n / numSegments n := (Nat.one_le_div_iff (by omega)).mpr hnsn
  calc k * (n / numSegments n) ≤ (numSegments n - 1) * (n / numSegments n) :=
        Nat.mul_le_mul_right _ (by omega)
    _ = numSegments n * (n / numSegments n) - 1 * (n / numSegments n) := by
        rw [← Nat.sub_mul]
    _ = numSegments n * (n / numSegments n) - n / numSegments n := by rw [one_mul]
    _ ≤ n - n / numSegments n := by
        apply Nat.sub_le_sub_right
        rw [mul_comm]
        exact Nat.div_mul_le_self n _
    _ < n := Nat.sub_lt (by omega) (by omega)

/-- Structural form of the long-route branch of
generate_detailed_route_steps: the loop appends one navigation step for
every boundary 1 .. num_segments - 1. -/
theorem generate_detailed_eq (d : ℚ × ℚ → ℚ × ℚ → ℚ) (route_coords : List Coord)
    (aq : AQData) (mode : String) (total : ℚ) (h3 : 3 ≤ route_coords.length) :
    generate_detailed_route_steps d route_coords aq mode total =
      mkStartStep d route_coords aq
        :: (List.range' 1 (numSegments route_coords.length - 1)).map
            (mkNavStep d route_coords aq mode)
        ++ [mkArrivalStep d route_coords aq mode total
            (numSegments route_coords.length - 1)] := by
  have hns3 : 3 ≤ numSegments route_coords.length := three_le_numSegments _
  have htw : (List.range' 1 (numSegments route_coords.length - 1)).takeWhile
      (fun k => decide (k * (route_coords.length / numSegments route_coords.length)
        < route_coords.length)) =
      List.range' 1 (numSegments route_coords.length - 1) := by
    rw [List.takeWhile_eq_self_iff]
    intro k hk
    rw [List.mem_range'] at hk
    obtain ⟨i, hi, rfl⟩ := hk
    simp only [decide_eq_true_eq]
    exact nav_index_lt h3 (by omega)
  unfold generate_detailed_route_steps
  rw [if_neg (by omega)]
  simp only [htw, List.length_map, List.length_range']

/-- Number of steps in the long-route branch. -/
theorem generate_detailed_length (d : ℚ × ℚ → ℚ × ℚ → ℚ) (route_coords : List Coord)
    (aq : AQData) (mode : String) (total : ℚ) (h3 : 3 ≤ route_coords.length) :
    (generate_detailed_route_steps d route_coords aq mode total).length =
      numSegments route_coords.length + 1 := by
  rw [generate_detailed_eq d route_coords aq mode total h3]
  have hns3 : 3 ≤ numSegments route_coords.length := three_le_numSegments _
  simp only [List.length_cons, List.length_append, List.length_map, List.length_range',
    List.length_nil]
  omega

/-- The step numbers of the long-route branch are 1 .. num_segments + 1. -/
theorem generate_detailed_map_number (d : ℚ × ℚ → ℚ × ℚ → ℚ) (route_coords : List Coord)
    (aq : AQData) (mode : String) (total : ℚ) (h3 : 3 ≤ route_coords.length) :
    (generate_detailed_route_steps d route_coords aq mode total).map Step.step_number =
      List.range' 1 (numSegments route_coords.length + 1) := by
  have hns3 : 3 ≤ numSegments route_coords.length := three_le_numSegments _
  obtain ⟨m, hm⟩ : ∃ m, numSegments route_coords.length = m + 3 :=
    ⟨numSegments route_coords.length - 3, by omega⟩
  rw [generate_detailed_eq d route_coords aq mode total h3, hm]
  have h2 : m + 3 - 1 = m + 2 := by omega
  rw [h2]
  simp only [List.map_cons, List.map_append, List.map_map, List.map_nil]
  have h1 : (Step.step_number ∘ mkNavStep d route_coords aq mode) = fun k => 1 + k :=
    funext fun k => Nat.add_comm k 1
  rw [h1, List.map_add_range']
  show (1 : ℕ) :: (List.range' 2 (m + 2) ++ [(m + 2) + 2]) = List.range' 1 (m + 3 + 1)
  have e1 : List.range' 1 (m + 3 + 1) = 1 :: List.range' 2 (m + 3) := by
    have := List.range'_succ 1 (m + 3) 1
    simpa using this
  have e2 : List.range' 2 (m + 3) = List.range' 2 (m + 2) ++ [2 + (m + 2)] := by
    have := @List.range'_concat 1 2 (m + 2)
    simpa using this
  have e3 : (m + 2) + 2 = 2 + (m + 2) := by omega
  rw [e1, e2, e3]

theorem get?_zero_of_ne_nil {l : List Coord} (h : l ≠ []) :
    l.get? 0 = some (l.headD default) := by
  cases l with
  | nil => exact absurd rfl h
  | cons c cs => rfl

theorem get?_eq_some_getD {l : List Coord} {i : ℕ} (h : i < l.length) :
    l.get? i = some (l.getD i default) := by
  rw [List.getD_eq_get?, List.get?_eq_get h]
  rfl

theorem getLast?_eq_some_getLastD {l : List Coord} (h : l ≠ []) :
    l.getLast? = some (l.getLastD default) := by
  rw [List.getLastD_eq_getLast?]
  cases hl : l.getLast? with
  | none => exact absurd (List.getLast?_eq_none.mp hl) h
  | some v => rfl

/-- C1: for every route coordinate list with at least 3 nodes the step
synthesizer emits exactly num_segments + 1 steps, where num_segments is
min(8, max(3, n // 10)), the clamp of n // 10 to [3, 8]: a start step at
node 0, a navigation step at node index k * (n // num_segments) for every
segment boundary k = 1 .. num_segments - 1, an arrival step at the last
node, and contiguous step numbers 1 .. num_segments + 1 (the 50-node
instance with its 6 steps numbered 1 .. 6 is the witness theorem). -/
theorem C1_step_synthesizer_segment_structure
    (d : ℚ × ℚ → ℚ × ℚ → ℚ) (route_coords : List Coord) (aq : AQData)
    (mode : String) (total : ℚ) (h3 : 3 ≤ route_coords.length) :
    numSegments route_coords.length = min 8 (max 3 (route_coords.length / 10)) ∧
    (generate_detailed_route_steps d route_coords aq mode total).length
        = numSegments route_coords.length + 1 ∧
    (generate_detailed_route_steps d route_coords aq mode total).map Step.step_number
        = List.range' 1 (numSegments route_coords.length + 1) ∧
    ((generate_detailed_route_steps d route_coords aq mode total).get? 0).map Step.type
        = some "start" ∧
    ((generate_detailed_route_steps d route_coords aq mode total).get? 0).map Step.coordinates
        = route_coords.get? 0 ∧
    (∀ k, 1 ≤ k → k ≤ numSegments route_coords.length - 1 →
      ((generate_detailed_route_steps d route_coords aq mode total).get? k).map Step.type
          = some "navigation" ∧
      ((generate_detailed_route_steps d route_coords aq mode total).get? k).map Step.coordinates
          = route_coords.get? (k * (route_coords.length / numSegments route_coords.length))) ∧
    ((generate_detailed_route_steps d route_coords aq mode total).get?
        (numSegments route_coords.length)).map Step.type = some "arrival" ∧
    ((generate_detailed_route_steps d route_coords aq mode total).get?
        (numSegments route_coords.length)).map Step.coordinates = route_coords.getLast? := by
  have hne : route_coords ≠ [] := by
    intro h
    rw [h] at h3
    simp at h3
  have hns3 : 3 ≤ numSegments route_coords.length := three_le_numSegments _
  have heq := generate_detailed_eq d route_coords aq mode total h3
  refine ⟨rfl, generate_detailed_length d route_coords aq mode total h3,
    generate_detailed_map_number d route_coords aq mode total h3, ?_, ?_, ?_, ?_, ?_⟩
  · rw [heq]
    rfl
  · rw [heq, get?_zero_of_ne_nil hne]
    rfl
  · intro k hk1 hk2
    obtain ⟨j, rfl⟩ : ∃ j, k = j + 1 := ⟨k - 1, by omega⟩
    have hjr : j < numSegments route_coords.length - 1 := by omega
    have hlt : j + 1 < (mkStartStep d route_coords aq ::
        (List.range' 1 (numSegments route_coords.length - 1)).map
          (mkNavStep d route_coords aq mode)).length := by
      simp only [List.length_cons, List.length_map, List.length_range']
      omega
    have hget : (generate_detailed_route_steps d route_coords aq mode total).get? (j + 1)
        = some (mkNavStep d route_coords aq mode (1 + j)) := by
      rw [heq, List.get?_append hlt, List.get?_cons_succ, List.get?_map,
        List.get?_range' 1 1 hjr]
      simp
    have hco : 1 + j = j + 1 := Nat.add_comm 1 j
    rw [hco] at hget
    constructor
    · rw [hget]
      rfl
    · have hidx : (j + 1) * (route_coords.length / numSegments route_coords.length)
          < route_coords.length := nav_index_lt h3 (by omega)
      rw [hget, get?_eq_some_getD hidx]
      rfl
  · obtain ⟨m, hm⟩ : ∃ m, numSegments route_coords.length = m + 3 :=
      ⟨numSegments route_coords.length - 3, by omega⟩
    have hlen2 : (mkStartStep d route_coords aq ::
        (List.range' 1 (numSegments route_coords.length - 1)).map
          (mkNavStep d route_coords aq mode)).length ≤ m + 3 := by
      simp only [List.length_cons, List.length_map, List.length_range']
      omega
    rw [heq, hm] at *
    rw [List.get?_append_right hlen2]
    have e : (m + 3) - (mkStartStep d route_coords aq ::
        (List.range' 1 (m + 3 - 1)).map (mkNavStep d route_coords aq mode)).length = 0 := by
      simp only [List.length_cons, List.length_map, List.length_range']
      omega
    rw [e]
    rfl
  · obtain ⟨m, hm⟩ : ∃ m, numSegments route_coords.length = m + 3 :=
      ⟨numSegments route_coords.length - 3, by omega⟩
    have hlen2 : (mkStartStep d route_coords aq ::
        (List.range' 1 (numSegments route_coords.length - 1)).map
          (mkNavStep d route_coords aq mode)).length ≤ m + 3 := by
      simp only [List.length_cons, List.length_map, List.length_range']
      omega
    rw [heq, hm] at *
    rw [List.get?_append_right hlen2]
    have e : (m + 3) - (mkStartStep d route_coords aq ::
        (List.range' 1 (m + 3 - 1)).map (mkNavStep d route_coords aq mode)).length = 0 := by
      simp only [List.length_cons, List.length_map, List.length_range']
      omega
    rw [e, getLast?_eq_some_getLastD hne]
    rfl

/-- A 50-node route used as concrete input: node i at latitude i. -/
def coords50 : List Coord := (List.range 50).map (fun i : ℕ => ⟨(i : ℚ), 0, 0⟩)

/-- A concrete distance function for witnesses and counterexamples:
the taxicab distance on (lat, lng) pairs.  On points that share a
latitude it is proportional to the true equatorial geodesic distance,
which is itself proportional to the longitude difference. -/
def ratAbs (q : ℚ) : ℚ := if q < 0 then -q else q

theorem ratAbs_nonneg (q : ℚ) : 0 ≤ ratAbs q := by
  unfold ratAbs
  split
  · linarith
  · linarith [not_lt.mp (by assumption : ¬ q < 0)]

def distEx : ℚ × ℚ → ℚ × ℚ → ℚ := fun a b => ratAbs (a.1 - b.1) + ratAbs (a.2 - b.2)

theorem distEx_nonneg (a b : ℚ × ℚ) : 0 ≤ distEx a b :=
  add_nonneg (ratAbs_nonneg _) (ratAbs_nonneg _)

/-- roundTo evaluates plainly whenever the scaled value is an integer. -/
theorem roundHalfEven_intCast (z : ℤ) : roundHalfEven (z : ℚ) = z := by
  unfold roundHalfEven
  rw [Int.floor_intCast]
  rw [if_pos]
  norm_num

theorem roundTo_eq_of_mul_eq {k : ℕ} {q : ℚ} {z : ℤ} (h : q * 10 ^ k = (z : ℚ)) :
    roundTo k q = (z : ℚ) / 10 ^ k := by
  unfold roundTo
  rw [h, roundHalfEven_intCast]

/-- A snapshot whose fetch failed. -/
def aqFail : AQData := ⟨false, []⟩

/-- Witness for C1: a 50-node path yields exactly 6 steps numbered 1..6
(num_segments = clamp(50 // 10, 3, 8) = 5). -/
theorem C1_step_synthesizer_segment_structure_witness :
    (generate_detailed_route_steps distEx coords50 aqFail "drive" 5).length = 6 ∧
    (generate_detailed_route_steps distEx coords50 aqFail "drive" 5).map Step.step_number
      = [1, 2, 3, 4, 5, 6] := by
  have hlen : coords50.length = 50 := by
    unfold coords50
    rw [List.length_map, List.length_range]
  have h := C1_step_synthesizer_segment_structure distEx coords50 aqFail "drive" 5
    (by rw [hlen]; norm_num)
  obtain ⟨-, hlen6, hmap, -⟩ := h
  constructor
  · rw [hlen6, hlen]
    rfl
  · rw [hmap, hlen]
    rfl

/-- C8: a path with fewer than 3 nodes takes the basic branch, and since
the midpoint step of generate_basic_steps requires strictly more than 2
raw coordinates, such a path yields exactly a start step and an arrival
step, with no navigation step; in particular every 2-node path yields
exactly 2 steps. -/
theorem C8_short_route_start_arrival_only
    (d : ℚ × ℚ → ℚ × ℚ → ℚ) (route_coords : List Coord) (aq : AQData)
    (mode : String) (total : ℚ) (h1 : 1 ≤ route_coords.length)
    (h2 : route_coords.length < 3) :
    (generate_detailed_route_steps d route_coords aq mode total).length = 2 ∧
    (generate_detailed_route_steps d route_coords aq mode total).map Step.type
      = ["start", "arrival"] ∧
    (generate_detailed_route_steps d route_coords aq mode total).map Step.step_number
      = [1, 2] ∧
    ((generate_detailed_route_steps d route_coords aq mode total).get? 0).map Step.coordinates
      = route_coords.get? 0 ∧
    ((generate_detailed_route_steps d route_coords aq mode total).get? 1).map Step.coordinates
      = route_coords.getLast? ∧
    ∀ s ∈ generate_detailed_route_steps d route_coords aq mode total, s.type ≠ "navigation" := by
  have hne : route_coords ≠ [] := by
    intro h
    rw [h] at h1
    simp at h1
  have hh : generate_detailed_route_steps d route_coords aq mode total =
      generate_basic_steps d route_coords aq mode total := by
    unfold generate_detailed_route_steps
    rw [if_pos h2]
  rw [hh]
  unfold generate_basic_steps
  rw [if_neg (by omega)]
  refine ⟨rfl, rfl, rfl, ?_, ?_, ?_⟩
  · rw [get?_zero_of_ne_nil hne]
    rfl
  · rw [getLast?_eq_some_getLastD hne]
    rfl
  · intro s hs
    rcases List.mem_cons.mp hs with h | h
    · subst h
      exact (by decide : ("start" : String) ≠ "navigation")
    · rcases List.mem_cons.mp h with h' | h'
      · subst h'
        exact (by decide : ("arrival" : String) ≠ "navigation")
      · simp at h'

/-- A 2-node route used as concrete input. -/
def coords2 : List Coord := [⟨0, 0, 0⟩, ⟨1, 1, 1⟩]

/-- Witness for C8: the 2-node path produces exactly the start and
arrival steps. -/
theorem C8_short_route_start_arrival_only_witness :
    (generate_detailed_route_steps distEx coords2 aqFail "drive" 1).length = 2 ∧
    (generate_detailed_route_steps distEx coords2 aqFail "drive" 1).map Step.type
      = ["start", "arrival"] := by
  have h := C8_short_route_start_arrival_only distEx coords2 aqFail "drive" 1
    (by decide) (by decide)
  exact ⟨h.1, h.2.1⟩

theorem get_osm_speed_kmh_pos (mode : String) : 0 < get_osm_speed_kmh mode := by
  unfold get_osm_speed_kmh
  split
  · norm_num
  · split
    · norm_num
    · split
      · norm_num
      · norm_num

theorem step_time_nonneg {x : ℚ} (hx : 0 ≤ x) (mode : String) :
    0 ≤ roundTo 1 (x / get_osm_speed_kmh mode * 60) :=
  roundTo_nonneg (mul_nonneg
    (div_nonneg hx (le_of_lt (get_osm_speed_kmh_pos mode))) (by norm_num))

/-- Bool rendering of the adjacency condition of claim C2 on one pair of
consecutive steps: either the monotonicity of both cumulative fields
holds, or the pair is the permitted navigation-to-arrival exception. -/
def stepPairOk (a b : Step) : Bool :=
  (a.type == "navigation" && b.type == "arrival")
    || (decide (a.distance_from_start_km ≤ b.distance_from_start_km)
        && decide (a.estimated_time_min ≤ b.estimated_time_min))

def adjacentPairsOk : List Step → Bool
  | [] => true
  | [_] => true
  | a :: b :: rest => stepPairOk a b && adjacentPairsOk (b :: rest)

/-- Bool rendering of claim C2 exactly as stated: contiguous numbering
from 1, non-negative cumulative fields, and non-decreasing cumulative
fields across every consecutive pair except a navigation step followed
by the arrival step. -/
def c2invariant (steps : List Step) : Bool :=
  decide (steps.map Step.step_number = List.range' 1 steps.length)
    && steps.all (fun s => decide (0 ≤ s.distance_from_start_km)
        && decide (0 ≤ s.estimated_time_min))
    && adjacentPairsOk steps

/-- A 30-node route whose straight-line distance from the start is not
monotone along the node order: the path runs out to longitude 7 by node
10 and back to longitude 2 by node 20.  All nodes sit on latitude 0,
where the true geodesic distance is proportional to the longitude
difference, so the taxicab distEx reproduces its comparisons. -/
def coords30 : List Coord :=
  [⟨0, 0, 0⟩, ⟨0, 0, 0⟩, ⟨0, 0, 0⟩, ⟨0, 0, 0⟩, ⟨0, 0, 0⟩,
   ⟨0, 0, 0⟩, ⟨0, 0, 0⟩, ⟨0, 0, 0⟩, ⟨0, 0, 0⟩, ⟨0, 0, 0⟩,
   ⟨0, 7, 0⟩, ⟨0, 0, 0⟩, ⟨0, 0, 0⟩, ⟨0, 0, 0⟩, ⟨0, 0, 0⟩,
   ⟨0, 0, 0⟩, ⟨0, 0, 0⟩, ⟨0, 0, 0⟩, ⟨0, 0, 0⟩, ⟨0, 0, 0⟩,
   ⟨0, 2, 0⟩, ⟨0, 0, 0⟩, ⟨0, 0, 0⟩, ⟨0, 0, 0⟩, ⟨0, 0, 0⟩,
   ⟨0, 0, 0⟩, ⟨0, 0, 0⟩, ⟨0, 0, 0⟩, ⟨0, 0, 0⟩, ⟨0, 0, 0⟩]

theorem coords30_nav1_distance :
    (mkNavStep distEx coords30 aqFail "drive" 1).distance_from_start_km = 7 := by
  show roundTo 2 (calculate_distance_along_route distEx (coords30.headD default)
    (coords30.getD (1 * (coords30.length / numSegments coords30.length)) default)) = 7
  have hd : calculate_distance_along_route distEx (coords30.headD default)
      (coords30.getD (1 * (coords30.length / numSegments coords30.length)) default)
      = 7 := by
    show distEx (0, 0) (0, 7) = 7
    norm_num [distEx, ratAbs]
  rw [hd, roundTo_eq_of_mul_eq (z := 700) (by norm_num)]
  norm_num

theorem coords30_nav2_distance :
    (mkNavStep distEx coords30 aqFail "drive" 2).distance_from_start_km = 2 := by
  show roundTo 2 (calculate_distance_along_route distEx (coords30.headD default)
    (coords30.getD (2 * (coords30.length / numSegments coords30.length)) default)) = 2
  have hd : calculate_distance_along_route distEx (coords30.headD default)
      (coords30.getD (2 * (coords30.length / numSegments coords30.length)) default)
      = 2 := by
    show distEx (0, 0) (0, 2) = 2
    norm_num [distEx, ratAbs]
  rw [hd, roundTo_eq_of_mul_eq (z := 200) (by norm_num)]
  norm_num

theorem coords30_steps :
    generate_detailed_route_steps distEx coords30 aqFail "drive" 2 =
      [mkStartStep distEx coords30 aqFail,
       mkNavStep distEx coords30 aqFail "drive" 1,
       mkNavStep distEx coords30 aqFail "drive" 2,
       mkArrivalStep distEx coords30 aqFail "drive" 2 2] := by
  have heq := generate_detailed_eq distEx coords30 aqFail "drive" 2 (by norm_num [coords30])
  rw [heq]
  rfl

/-- Counterexample to C2 as stated: on a route that approaches the start
again, the straight-line distance_from_start_km decreases between two
consecutive navigation steps (steps 2 and 3 here), a pair that the claim
does not except, so the claimed invariant is false on this input. -/
theorem C2_step_sequence_invariants_counterexample :
    c2invariant (generate_detailed_route_steps distEx coords30 aqFail "drive" 2) = false ∧
    ((generate_detailed_route_steps distEx coords30 aqFail "drive" 2).get? 1).map Step.type
      = some "navigation" ∧
    ((generate_detailed_route_steps distEx coords30 aqFail "drive" 2).get? 2).map Step.type
      = some "navigation" ∧
    ((generate_detailed_route_steps distEx coords30 aqFail "drive" 2).get? 1).map
      Step.distance_from_start_km = some 7 ∧
    ((generate_detailed_route_steps distEx coords30 aqFail "drive" 2).get? 2).map
      Step.distance_from_start_km = some 2 ∧
    ((2 : ℚ) < 7) := by
  have hpair : stepPairOk (mkNavStep distEx coords30 aqFail "drive" 1)
      (mkNavStep distEx coords30 aqFail "drive" 2) = false := by
    unfold stepPairOk
    rw [coords30_nav1_distance, coords30_nav2_distance]
    have h1 : ¬ ((7 : ℚ) ≤ 2) := by norm_num
    simp [h1]
    intro _
    show ¬ ("navigation" : String) = "arrival"
    decide
  refine ⟨?_, ?_, ?_, ?_, ?_, by norm_num⟩
  · rw [coords30_steps]
    simp [c2invariant, adjacentPairsOk, hpair]
  · rw [coords30_steps]
    rfl
  · rw [coords30_steps]
    rfl
  · rw [coords30_steps]
    show some (mkNavStep distEx coords30 aqFail "drive" 1).distance_from_start_km = some 7
    rw [coords30_nav1_distance]
  · rw [coords30_steps]
    show some (mkNavStep distEx coords30 aqFail "drive" 2).distance_from_start_km = some 2
    rw [coords30_nav2_distance]

/-- C2 (amended): step_number is contiguous starting at 1 and
distance_from_start_km and estimated_time_min are non-negative, with the
start step at exactly zero for both; the non-decreasing part of the
original claim is amended because the straight-line distances of the
navigation steps may also decrease between two consecutive navigation
steps (see the counterexample), not only between the last navigation
step and the arrival step. -/
theorem C2_step_sequence_invariants
    (d : ℚ × ℚ → ℚ × ℚ → ℚ) (route_coords : List Coord) (aq : AQData)
    (mode : String) (total : ℚ) (hne : route_coords ≠ [])
    (hd : ∀ a b, 0 ≤ d a b) (htot : 0 ≤ total) :
    (generate_detailed_route_steps d route_coords aq mode total).map Step.step_number
      = List.range' 1 (generate_detailed_route_steps d route_coords aq mode total).length ∧
    (∀ s ∈ generate_detailed_route_steps d route_coords aq mode total,
      0 ≤ s.distance_from_start_km ∧ 0 ≤ s.estimated_time_min) ∧
    ((generate_detailed_route_steps d route_coords aq mode total).get? 0).map
      Step.distance_from_start_km = some 0 ∧
    ((generate_detailed_route_steps d route_coords aq mode total).get? 0).map
      Step.estimated_time_min = some 0 := by
  by_cases h3 : 3 ≤ route_coords.length
  · refine ⟨?_, ?_, ?_, ?_⟩
    · rw [generate_detailed_map_number d route_coords aq mode total h3,
        generate_detailed_length d route_coords aq mode total h3]
    · intro s hs
      rw [generate_detailed_eq d route_coords aq mode total h3] at hs
      rcases List.mem_append.mp hs with h | h
      · rcases List.mem_cons.mp h with h' | h'
        · subst h'
          exact ⟨le_refl 0, le_refl 0⟩
        · obtain ⟨k, -, rfl⟩ := List.mem_map.mp h'
          refine ⟨roundTo_nonneg ?_, step_time_nonneg ?_ mode⟩
          · exact hd _ _
          · exact hd _ _
      · rw [List.mem_singleton] at h
        subst h
        exact ⟨roundTo_nonneg htot, step_time_nonneg htot mode⟩
    · rw [generate_detailed_eq d route_coords aq mode total h3]
      rfl
    · rw [generate_detailed_eq d route_coords aq mode total h3]
      rfl
  · have hh : generate_detailed_route_steps d route_coords aq mode total =
        generate_basic_steps d route_coords aq mode total := by
      unfold generate_detailed_route_steps
      rw [if_pos (by omega)]
    have hmid : ¬ 2 < route_coords.length := by omega
    rw [hh]
    unfold generate_basic_steps
    rw [if_neg hmid]
    refine ⟨rfl, ?_, rfl, rfl⟩
    intro s hs
    rcases List.mem_cons.mp hs with h | h
    · subst h
      exact ⟨le_refl 0, le_refl 0⟩
    · rcases List.mem_cons.mp h with h' | h'
      · subst h'
        exact ⟨roundTo_nonneg htot, step_time_nonneg htot mode⟩
      · simp at h'

/-- Witness for the amended C2 on a concrete 2-node route. -/
theorem C2_step_sequence_invariants_witness :
    (generate_detailed_route_steps distEx coords2 aqFail "drive" 1).map Step.step_number
      = List.range' 1 (generate_detailed_route_steps distEx coords2 aqFail "drive" 1).length ∧
    ((generate_detailed_route_steps distEx coords2 aqFail "drive" 1).get? 0).map
      Step.distance_from_start_km = some 0 := by
  have h := C2_step_sequence_invariants distEx coords2 aqFail "drive" 1
    (by simp [coords2]) distEx_nonneg (by norm_num)
  exact ⟨h.1, h.2.2.1⟩

/-- Closed form of the embedded score on two numeric readings. -/
theorem calculate_score_num_eq (q1 q2 : ℚ) :
    calculate_air_quality_score (.num q1) (.num q2) =
      roundTo 2 (max 0 (min 100
        ((max 0 (100 - q1 * 2)) * 0.7 + (max 0 (100 - q2 * 0.5)) * 0.3))) := by
  by_cases h1 : q1 = 0 <;> by_cases h2 : q2 = 0 <;>
    simp [calculate_air_quality_score, pyGetOr0, h1, h2]

/-- The scoring formula exactly as claim C3 words it: each component
clamped to the interval [0, 100] before weighting. -/
def c3ClaimScore (pm25 pm10 : ℚ) : ℚ :=
  roundTo 2 (max 0 (min 100
    (0.7 * (max 0 (min 100 (100 - pm25 * 2))) + 0.3 * (max 0 (min 100 (100 - pm10 * 0.5))))))

/-- Counterexample to C3 as stated: the code clamps each component only
below at 0, not above at 100, so a negative pm2.5 reading of -10 paired
with pm10 = 200 scores 84 where the claimed formula gives 70; moreover a
falsy non-numeric reading (empty string) is coerced to 0 by the
metrics.get(...) or 0 idiom and scores 100 instead of triggering the
50 failure fallback the claim predicts for non-numeric input. -/
theorem C3_air_quality_score_formula_counterexample :
    calculate_air_quality_score (.num (-10)) (.num 200) = 84 ∧
    c3ClaimScore (-10) 200 = 70 ∧
    calculate_air_quality_score (.num (-10)) (.num 200) ≠ c3ClaimScore (-10) 200 ∧
    calculate_air_quality_score .falsyNonNum .absent = 100 ∧
    calculate_air_quality_score .falsyNonNum .absent ≠ 50 := by
  have h84 : calculate_air_quality_score (.num (-10)) (.num 200) = 84 := by
    have e : max (0:ℚ) (min 100
        ((max 0 (100 - (-10) * 2)) * 0.7 + (max 0 (100 - 200 * 0.5)) * 0.3)) = 84 := by
      norm_num
    rw [calculate_score_num_eq, e, roundTo_eq_of_mul_eq (z := 8400) (by norm_num)]
    norm_num
  have h70 : c3ClaimScore (-10) 200 = 70 := by
    unfold c3ClaimScore
    have e : max (0:ℚ) (min 100
        (0.7 * (max 0 (min 100 (100 - (-10) * 2))) + 0.3 * (max 0 (min 100 (100 - 200 * 0.5)))))
        = 70 := by norm_num
    rw [e, roundTo_eq_of_mul_eq (z := 7000) (by norm_num)]
    norm_num
  have h100 : calculate_air_quality_score .falsyNonNum .absent = 100 := by
    show roundTo 2 (max 0 (min 100
      ((max 0 (100 - 0 * 2)) * 0.7 + (max 0 (100 - 0 * 0.5)) * 0.3))) = 100
    have e : max (0:ℚ) (min 100
        ((max 0 (100 - 0 * 2)) * 0.7 + (max 0 (100 - 0 * 0.5)) * 0.3)) = 100 := by norm_num
    rw [e, roundTo_eq_of_mul_eq (z := 10000) (by norm_num)]
    norm_num
  refine ⟨h84, h70, ?_, h100, ?_⟩
  · rw [h84, h70]
    norm_num
  · rw [h100]
    norm_num

/-- C3 (amended): for numeric or absent/null readings (null, absent and
falsy values coerced to 0 by the metrics.get or 0 idiom) the score is
0.7 * max(0, 100 - pm25 * 2) + 0.3 * max(0, 100 - pm10 * 0.5), clamped
to [0, 100] and rounded to 2 decimals — each component is clamped below
at 0 but not above at 100, the final clamp alone capping the total — so
pm25 = 0 and pm10 = 0 gives exactly 100, and a computation failure
(truthy non-numeric input reaching the arithmetic) returns 50. -/
theorem C3_air_quality_score_formula :
    (∀ v1 v2 q1 q2, pyGetOr0 v1 = some q1 → pyGetOr0 v2 = some q2 →
      calculate_air_quality_score v1 v2 =
        roundTo 2 (max 0 (min 100
          ((max 0 (100 - q1 * 2)) * 0.7 + (max 0 (100 - q2 * 0.5)) * 0.3)))) ∧
    calculate_air_quality_score (.num 0) (.num 0) = 100 ∧
    (∀ v1 v2, pyGetOr0 v1 = none ∨ pyGetOr0 v2 = none →
      calculate_air_quality_score v1 v2 = 50) := by
  refine ⟨?_, ?_, ?_⟩
  · intro v1 v2 q1 q2 h1 h2
    simp only [calculate_air_quality_score, h1, h2]
  · have e : max (0:ℚ) (min 100
        ((max 0 (100 - 0 * 2)) * 0.7 + (max 0 (100 - 0 * 0.5)) * 0.3)) = 100 := by norm_num
    rw [calculate_score_num_eq, e, roundTo_eq_of_mul_eq (z := 10000) (by norm_num)]
    norm_num
  · intro v1 v2 h
    rcases h with h | h
    · cases hv2 : pyGetOr0 v2 <;> simp [calculate_air_quality_score, h, hv2]
    · cases hv1 : pyGetOr0 v1 <;> simp [calculate_air_quality_score, h, hv1]

/-- Witness for the amended C3 at concrete inputs. -/
theorem C3_air_quality_score_formula_witness :
    calculate_air_quality_score (.num 10) (.num 20) =
      roundTo 2 (max 0 (min 100
        ((max 0 (100 - 10 * 2)) * 0.7 + (max 0 (100 - 20 * 0.5)) * 0.3))) ∧
    calculate_air_quality_score .truthyNonNum (.num 1) = 50 := by
  have h := C3_air_quality_score_formula
  exact ⟨h.1 (.num 10) (.num 20) 10 20 (by norm_num [pyGetOr0]) (by norm_num [pyGetOr0]),
    h.2.2 .truthyNonNum (.num 1) (Or.inl rfl)⟩

/-- C9: once pm2.5 is at least 50 its component is clamped to 0, so the
score is exactly round(0.3 * max(0, 100 - pm10 * 0.5), 2) for any
non-negative pm10 and is independent of the exact pm2.5 value. -/
theorem C9_pm25_saturated_score (q1 q2 : ℚ) (h1 : 50 ≤ q1) (h2 : 0 ≤ q2) :
    calculate_air_quality_score (.num q1) (.num q2)
      = roundTo 2 (0.3 * max 0 (100 - q2 * 0.5)) ∧
    ∀ q1', 50 ≤ q1' →
      calculate_air_quality_score (.num q1) (.num q2)
        = calculate_air_quality_score (.num q1') (.num q2) := by
  have key : ∀ p : ℚ, 50 ≤ p →
      calculate_air_quality_score (.num p) (.num q2)
        = roundTo 2 (0.3 * max 0 (100 - q2 * 0.5)) := by
    intro p hp
    rw [calculate_score_num_eq]
    have e1 : max (0:ℚ) (100 - p * 2) = 0 := max_eq_left (by linarith)
    rw [e1]
    have e2 : (0:ℚ) * 0.7 + (max 0 (100 - q2 * 0.5)) * 0.3
        = 0.3 * max 0 (100 - q2 * 0.5) := by ring
    rw [e2]
    have hge : (0:ℚ) ≤ 0.3 * max 0 (100 - q2 * 0.5) :=
      mul_nonneg (by norm_num) (le_max_left _ _)
    have hle : (0.3:ℚ) * max 0 (100 - q2 * 0.5) ≤ 100 := by
      have hm : max (0:ℚ) (100 - q2 * 0.5) ≤ 100 :=
        max_le (by norm_num) (by nlinarith)
      nlinarith
    rw [min_eq_right hle, max_eq_right hge]
  exact ⟨key q1 h1, fun q1' h1' => (key q1 h1).trans (key q1' h1').symm⟩

/-- Witness for C9 at pm25 = 50, pm10 = 0. -/
theorem C9_pm25_saturated_score_witness :
    calculate_air_quality_score (.num 50) (.num 0)
      = roundTo 2 (0.3 * max 0 (100 - 0 * 0.5)) ∧
    calculate_air_quality_score (.num 50) (.num 0)
      = calculate_air_quality_score (.num 90) (.num 0) := by
  have h := C9_pm25_saturated_score 50 0 (by norm_num) (by norm_num)
  exact ⟨h.1, h.2 90 (by norm_num)⟩

/-- C10: whatever the two metric values are — numeric of any sign,
null, absent, falsy or truthy non-numeric — the score is a rational in
[0, 100]: the failure fallback 50 is in range and the final clamp keeps
every computed value in range, and the embedding is a total function, so
no error escapes to the caller. -/
theorem C10_score_always_in_range (v1 v2 : PyVal) :
    0 ≤ calculate_air_quality_score v1 v2 ∧ calculate_air_quality_score v1 v2 ≤ 100 := by
  cases hv1 : pyGetOr0 v1 <;> cases hv2 : pyGetOr0 v2 <;>
    simp only [calculate_air_quality_score, hv1, hv2]
  · norm_num
  · norm_num
  · norm_num
  · rename_i p1 p2
    constructor
    · exact roundTo_nonneg (le_max_left _ _)
    · have h := roundTo_le_nat (k := 2) (N := 100)
        (q := max 0 (min 100 ((max 0 (100 - p1 * 2)) * 0.7 + (max 0 (100 - p2 * 0.5)) * 0.3)))
        (max_le (by norm_num) ((min_le_left _ _).trans (by norm_num)))
      exact_mod_cast h

/-- Concrete sensors at 1, 2 and 5 units from the origin (all on the
equator, so distEx agrees with geodesic comparisons). -/
def sensorAt1 : SensorNode := ⟨"s1", 0, 1, 80⟩

def sensorAt2 : SensorNode := ⟨"s2", 0, 2, 60⟩

def sensorAt5 : SensorNode := ⟨"s5", 0, 5, 40⟩

def destAt1 : Destination := ⟨"d1", 0, 1⟩

def destAt2 : Destination := ⟨"d2", 0, 2⟩

def destAt5 : Destination := ⟨"d5", 0, 5⟩

/-- C4: the nearest-neighbour join returns the candidate at minimum
distance provided that distance is within max_distance_km — it is
within the radius, minimal among all candidates, and the first candidate
attaining the minimum in iteration order (every earlier candidate is
strictly farther, which the find? clause expresses) — and returns none
exactly when no candidate lies within the radius; instantiated for both
source scans on candidates at distances 1, 2, 5 with radius 3 (the 1 km
candidate wins) and radius 0.5 (none). -/
theorem C4_nearest_neighbor_join :
    (∀ (α : Type) (dist : α → ℚ) (maxD : ℚ) (l : List α),
      (nearestScan dist maxD l = none ↔ ∀ e ∈ l, ¬ dist e ≤ maxD) ∧
      (∀ c, nearestScan dist maxD l = some c →
        c ∈ l ∧ dist c ≤ maxD ∧ (∀ e ∈ l, dist c ≤ dist e) ∧
        l.find? (fun e => decide (dist e ≤ dist c)) = some c)) ∧
    find_nearest_air_quality_node distEx 0 0 [sensorAt1, sensorAt2, sensorAt5] 3
      = some sensorAt1 ∧
    find_nearest_air_quality_node distEx 0 0 [sensorAt1, sensorAt2, sensorAt5] (1/2)
      = none ∧
    find_nearest_destination distEx 0 0 [destAt1, destAt2, destAt5] 3 = some destAt1 ∧
    find_nearest_destination distEx 0 0 [destAt1, destAt2, destAt5] (1/2) = none := by
  refine ⟨fun α dist maxD l => nearestScan_spec dist maxD l, ?_, ?_, ?_, ?_⟩
  · norm_num [find_nearest_air_quality_node, nearestScan, nearestScanGo,
      sensorAt1, sensorAt2, sensorAt5, distEx, ratAbs]
  · norm_num [find_nearest_air_quality_node, nearestScan, nearestScanGo,
      sensorAt1, sensorAt2, sensorAt5, distEx, ratAbs]
  · norm_num [find_nearest_destination, nearestScan, nearestScanGo,
      destAt1, destAt2, destAt5, distEx, ratAbs]
  · norm_num [find_nearest_destination, nearestScan, nearestScanGo,
      destAt1, destAt2, destAt5, distEx, ratAbs]

/-- Witness for C4: the general characterisation applied to the concrete
sensor list. -/
theorem C4_nearest_neighbor_join_witness :
    sensorAt1 ∈ [sensorAt1, sensorAt2, sensorAt5] ∧
    distEx (0, 0) (sensorAt1.lat, sensorAt1.lng) ≤ 3 := by
  have h := C4_nearest_neighbor_join
  have h2 := (h.1 SensorNode (fun node => distEx (0, 0) (node.lat, node.lng)) 3
    [sensorAt1, sensorAt2, sensorAt5]).2 sensorAt1 h.2.1
  exact ⟨h2.1, h2.2.1⟩

/-- C5: when the snapshot succeeded and sensors exist but no sensor is
within 3 km of any sampled point, every sample is silently dropped and
the analyzer returns the degraded summary with average 50 and the
specific could-not-obtain-data-along-route message — which the degraded
constructor shows carries no samples_analyzed field — and this message
differs from the snapshot-fetch-failed message; the same isolated point
evaluated per step instead defaults to score 50 with the no-nearby-data
level. -/
theorem C5_analyzer_drop_asymmetry
    (d : ℚ × ℚ → ℚ × ℚ → ℚ) (route_coords : List Coord) (nodes : List SensorNode)
    (hnodes : nodes ≠ [])
    (hfar : ∀ p ∈ samplePoints route_coords, ∀ nd ∈ nodes,
      ¬ d (p.lat, p.lng) (nd.lat, nd.lng) ≤ 3) :
    analyze_route_air_quality d route_coords ⟨true, nodes⟩
      = .degraded 50 "🔵 Desconocida"
          "No se pudieron obtener datos de calidad del aire en la ruta" ∧
    "No se pudieron obtener datos de calidad del aire en la ruta"
      ≠ "No hay datos disponibles de calidad del aire" ∧
    analyze_route_air_quality d route_coords ⟨false, nodes⟩
      = .degraded 50 "🔵 Sin datos" "No hay datos disponibles de calidad del aire" ∧
    (∀ p : Coord, (∀ nd ∈ nodes, ¬ d (p.lat, p.lng) (nd.lat, nd.lng) ≤ 3) →
      evaluate_point_air_quality d p ⟨true, nodes⟩
        = ⟨50, "🔵 Sin datos cercanos", none, none⟩) := by
  have hjoin : ∀ p ∈ samplePoints route_coords,
      find_nearest_air_quality_node d p.lat p.lng nodes 3 = none := by
    intro p hp
    exact (nearestScan_spec _ 3 nodes).1.mpr (fun nd hnd => hfar p hp nd hnd)
  refine ⟨?_, by decide, ?_, ?_⟩
  · have hnil : (samplePoints route_coords).filterMap (fun point =>
        (find_nearest_air_quality_node d point.lat point.lng nodes 3).map
          (fun nearest_node => (point, nearest_node))) = [] :=
      List.filterMap_eq_nil.mpr (fun p hp => by rw [hjoin p hp]; rfl)
    unfold analyze_route_air_quality
    rw [if_neg (by simp), if_neg (by simpa using hnodes)]
    simp [hnil]
  · unfold analyze_route_air_quality
    rw [if_pos rfl]
  · intro p hp
    have hnone : find_nearest_air_quality_node d p.lat p.lng nodes 3 = none :=
      (nearestScan_spec _ 3 nodes).1.mpr (fun nd hnd => hp nd hnd)
    unfold evaluate_point_air_quality
    rw [if_neg (by simp)]
    rw [hnone]

/-- A one-node route and a single sensor 10 units away. -/
def coords1 : List Coord := [⟨0, 0, 0⟩]

def sensorFar : SensorNode := ⟨"lejano", 0, 10, 80⟩

/-- Witness for C5 on the concrete one-node route with one distant
sensor. -/
theorem C5_analyzer_drop_asymmetry_witness :
    analyze_route_air_quality distEx coords1 ⟨true, [sensorFar]⟩
      = .degraded 50 "🔵 Desconocida"
          "No se pudieron obtener datos de calidad del aire en la ruta" ∧
    evaluate_point_air_quality distEx ⟨0, 0, 0⟩ ⟨true, [sensorFar]⟩
      = ⟨50, "🔵 Sin datos cercanos", none, none⟩ := by
  have hfar : ∀ p ∈ samplePoints coords1, ∀ nd ∈ [sensorFar],
      ¬ distEx (p.lat, p.lng) (nd.lat, nd.lng) ≤ 3 := by
    intro p hp nd hnd
    have hp' : p = ⟨0, 0, 0⟩ := by
      have : samplePoints coords1 = [⟨0, 0, 0⟩] := rfl
      rw [this] at hp
      simpa using hp
    have hnd' : nd = sensorFar := by simpa using hnd
    subst hp'
    subst hnd'
    show ¬ distEx (0, 0) (0, 10) ≤ 3
    norm_num [distEx, ratAbs, sensorFar]
  have h := C5_analyzer_drop_asymmetry distEx coords1 [sensorFar] (by simp) hfar
  refine ⟨h.1, h.2.2.2 ⟨0, 0, 0⟩ ?_⟩
  intro nd hnd
  have hnd' : nd = sensorFar := by simpa using hnd
  subst hnd'
  show ¬ distEx (0, 0) (0, 10) ≤ 3
  norm_num [distEx, ratAbs, sensorFar]

/-- The synthesizer always emits at least the start step on a non-empty
route, in both branches. -/
theorem generate_detailed_ne_nil (d : ℚ × ℚ → ℚ × ℚ → ℚ) (route_coords : List Coord)
    (aq : AQData) (mode : String) (total : ℚ) :
    generate_detailed_route_steps d route_coords aq mode total ≠ [] := by
  by_cases h3 : 3 ≤ route_coords.length
  · rw [generate_detailed_eq d route_coords aq mode total h3]
    simp
  · unfold generate_detailed_route_steps
    rw [if_pos (by omega)]
    unfold generate_basic_steps
    split <;> simp

/-- A failed or sensor-free snapshot always yields a degraded summary
with average 50. -/
theorem analyze_degraded_of_fail_or_empty (d : ℚ × ℚ → ℚ × ℚ → ℚ)
    (route_coords : List Coord) (snapshot : AQData)
    (h : snapshot.success = false ∨ snapshot.nodes_with_air_quality = []) :
    ∃ lvl msg, analyze_route_air_quality d route_coords snapshot
      = .degraded 50 lvl msg := by
  by_cases hs : snapshot.success = false
  · refine ⟨"🔵 Sin datos", "No hay datos disponibles de calidad del aire", ?_⟩
    unfold analyze_route_air_quality
    rw [if_pos hs]
  · have hnil : snapshot.nodes_with_air_quality = [] := by
      rcases h with h | h
      · exact absurd h hs
      · exact h
    refine ⟨"🔵 Sin datos", "No se encontraron sensores de calidad del aire", ?_⟩
    unfold analyze_route_air_quality
    rw [if_neg hs, if_pos hnil]

/-- C6: whenever the path phase succeeds on a non-empty route, the
orchestrator returns success = true with the full step sequence (never
empty) and the full coordinate polyline regardless of the snapshot, and
a failed or sensor-free snapshot only degrades the air-quality portion
to the neutral average-50 summary; whenever the path phase raises, the
orchestrator returns the structured two-field failure dictionary — the
embedding is a total function of the collaborator outcomes, so no fault
reaches the caller unhandled. -/
theorem C6_orchestrator_structured_results (d : ℚ × ℚ → ℚ × ℚ → ℚ)
    (pathResult : Except String (List Coord × ℚ)) (snapshot : AQData) (mode : String) :
    (∀ route_coords route_length_m,
      pathResult = .ok (route_coords, route_length_m) → route_coords ≠ [] →
      (get_osm_route_with_air_quality d pathResult snapshot mode).success = true ∧
      (get_osm_route_with_air_quality d pathResult snapshot mode).step_by_step_instructions
        = generate_detailed_route_steps d route_coords snapshot mode (route_length_m / 1000) ∧
      (get_osm_route_with_air_quality d pathResult snapshot mode).step_by_step_instructions
        ≠ [] ∧
      (get_osm_route_with_air_quality d pathResult snapshot mode).route_coordinates
        = route_coords.map (fun coord => (coord.lat, coord.lng)) ∧
      (snapshot.success = false ∨ snapshot.nodes_with_air_quality = [] →
        ∃ lvl msg, (get_osm_route_with_air_quality d pathResult snapshot mode).air_quality_analysis
          = some (.degraded 50 lvl msg))) ∧
    (∀ e, pathResult = .error e →
      get_osm_route_with_air_quality d pathResult snapshot mode
        = { success := false
            error := some ("Error en cálculo de ruta: " ++ e)
            route_summary := none
            step_by_step_instructions := []
            route_coordinates := []
            air_quality_analysis := none }) := by
  constructor
  · intro route_coords route_length_m hok hne
    subst hok
    refine ⟨rfl, rfl, ?_, rfl, ?_⟩
    · exact generate_detailed_ne_nil d route_coords snapshot mode (route_length_m / 1000)
    · intro hdeg
      obtain ⟨lvl, msg, hd⟩ :=
        analyze_degraded_of_fail_or_empty d route_coords snapshot hdeg
      exact ⟨lvl, msg, by rw [show (get_osm_route_with_air_quality d
        (.ok (route_coords, route_length_m)) snapshot mode).air_quality_analysis
        = some (analyze_route_air_quality d route_coords snapshot) from rfl, hd]⟩
  · intro e herr
    subst herr
    rfl

/-- Witness for C6: a concrete successful two-node path with a failed
snapshot still succeeds, and a concrete raised path error comes back as
a structured failure. -/
theorem C6_orchestrator_structured_results_witness :
    (get_osm_route_with_air_quality distEx (.ok (coords2, 1000)) aqFail "drive").success
      = true ∧
    (get_osm_route_with_air_quality distEx (.ok (coords2, 1000)) aqFail "drive").step_by_step_instructions ≠ [] ∧
    (get_osm_route_with_air_quality distEx (.error "sin ruta") aqFail "drive").success
      = false := by
  have hok := (C6_orchestrator_structured_results distEx (.ok (coords2, 1000)) aqFail "drive").1
    coords2 1000 rfl (by simp [coords2])
  have herr := (C6_orchestrator_structured_results distEx (.error "sin ruta") aqFail "drive").2
    "sin ruta" rfl
  exact ⟨hok.1, hok.2.2.1, by rw [herr]⟩

theorem range'_eq_map_mul (st : ℕ) : ∀ (cnt s0 : ℕ),
    List.range' s0 cnt st = (List.range cnt).map (fun i => s0 + st * i) := by
  intro cnt
  induction cnt with
  | zero => intro s0; rfl
  | succ n ih =>
    intro s0
    rw [List.range'_succ, List.range_succ_eq_map, List.map_cons, ih (s0 + st)]
    rw [List.map_map]
    have hf : ((fun i => s0 + st * i) ∘ Nat.succ) = fun i => s0 + st + st * i := by
      funext i
      simp only [Function.comp_apply, Nat.succ_eq_add_one]
      ring
    have h0 : s0 + st * 0 = s0 := by ring
    rw [hf, h0]

theorem filterMap_get?_length (coords : List Coord) :
    ∀ idxs : List ℕ, (∀ i ∈ idxs, i < coords.length) →
      (idxs.filterMap (fun i => coords.get? i)).length = idxs.length := by
  intro idxs
  induction idxs with
  | nil => intro _; rfl
  | cons i rest ih =>
    intro h
    have hi : i < coords.length := h i (List.mem_cons_self _ _)
    rw [List.filterMap_cons, List.get?_eq_get hi]
    simp only [List.length_cons]
    rw [ih (fun j hj => h j (List.mem_cons_of_mem _ hj))]

theorem filterMap_get?_get? (coords : List Coord) :
    ∀ (idxs : List ℕ), (∀ i ∈ idxs, i < coords.length) →
      ∀ j, (idxs.filterMap (fun i => coords.get? i)).get? j
        = (idxs.get? j).bind (fun i => coords.get? i) := by
  intro idxs
  induction idxs with
  | nil => intro _ j; cases j <;> rfl
  | cons i rest ih =>
    intro h j
    have hi : i < coords.length := h i (List.mem_cons_self _ _)
    rw [List.filterMap_cons, List.get?_eq_get hi]
    cases j with
    | zero =>
      rw [List.get?_cons_zero, List.get?_cons_zero]
      rw [Option.some_bind, List.get?_eq_get hi]
    | succ j' =>
      rw [List.get?_cons_succ, List.get?_cons_succ]
      exact ih (fun k hk => h k (List.mem_cons_of_mem _ hk)) j'

/-- C7 (amended): for a route of n nodes the analyzer samples exactly
the node indices 0, s, 2s, ... with s = max(1, n // 10), i.e. the
multiples k * s for k = 0 .. (n - 1) // s, all below n, and the sampled
points are precisely the route coordinates at those indices; the sample
count is (n - 1) // s + 1, which is at most 19 (attained at n = 19,
where the stride stays 1 — the claimed bound of about 11 fails there,
see the counterexample) and at most 11 once n is at least 90. -/
theorem C7_analyzer_sampling (n : ℕ) (h1 : 1 ≤ n) :
    sampleIndices n = (List.range ((n - 1) / max 1 (n / 10) + 1)).map
      (fun i => i * max 1 (n / 10)) ∧
    (∀ i ∈ sampleIndices n, i < n) ∧
    (sampleIndices n).length ≤ 19 ∧
    (90 ≤ n → (sampleIndices n).length ≤ 11) ∧
    (∀ route_coords : List Coord, route_coords.length = n →
      samplePoints route_coords
        = (sampleIndices n).filterMap (fun i => route_coords.get? i) ∧
      (samplePoints route_coords).length = (sampleIndices n).length ∧
      (∀ j, (samplePoints route_coords).get? j
        = ((sampleIndices n).get? j).bind (fun i => route_coords.get? i))) := by
  have hs1 : 1 ≤ max 1 (n / 10) := le_max_left 1 _
  have hcnt : (n + max 1 (n / 10) - 1) / max 1 (n / 10)
      = (n - 1) / max 1 (n / 10) + 1 := by
    have e : n + max 1 (n / 10) - 1 = (n - 1) + max 1 (n / 10) := by omega
    rw [e, Nat.add_div_right _ (by omega)]
  have hmap : sampleIndices n = (List.range ((n - 1) / max 1 (n / 10) + 1)).map
      (fun i => i * max 1 (n / 10)) := by
    unfold sampleIndices
    dsimp only
    rw [hcnt, range'_eq_map_mul]
    apply List.map_congr_left
    intro i _
    ring
  have hlt : ∀ i ∈ sampleIndices n, i < n := by
    intro i hi
    rw [hmap] at hi
    obtain ⟨j, hj, rfl⟩ := List.mem_map.mp hi
    rw [List.mem_range] at hj
    have hj' : j ≤ (n - 1) / max 1 (n / 10) := by omega
    have h2 : j * max 1 (n / 10) ≤ ((n - 1) / max 1 (n / 10)) * max 1 (n / 10) :=
      Nat.mul_le_mul_right _ hj'
    have h3 : ((n - 1) / max 1 (n / 10)) * max 1 (n / 10) ≤ n - 1 :=
      Nat.div_mul_le_self _ _
    omega
  have hlen : (sampleIndices n).length = (n - 1) / max 1 (n / 10) + 1 := by
    rw [hmap, List.length_map, List.length_range]
  refine ⟨hmap, hlt, ?_, ?_, ?_⟩
  · rw [hlen]
    suffices h : (n - 1) / max 1 (n / 10) < 19 by omega
    rw [Nat.div_lt_iff_lt_mul (by omega)]
    rcases le_or_lt n 19 with h | h
    · have h19 : 19 ≤ 19 * max 1 (n / 10) := Nat.le_mul_of_pos_right 19 (by omega)
      omega
    · have hsq : max 1 (n / 10) = n / 10 := max_eq_right (by omega)
      rw [hsq]
      omega
  · intro h90
    rw [hlen]
    suffices h : (n - 1) / max 1 (n / 10) < 11 by omega
    rw [Nat.div_lt_iff_lt_mul (by omega)]
    have hsq : max 1 (n / 10) = n / 10 := max_eq_right (by omega)
    rw [hsq]
    omega
  · intro route_coords hrc
    have hlt' : ∀ i ∈ sampleIndices route_coords.length, i < route_coords.length := by
      rw [hrc]
      exact hlt
    have hfilter : (sampleIndices route_coords.length).filter
        (fun i => decide (i < route_coords.length)) = sampleIndices route_coords.length :=
      List.filter_eq_self.mpr (fun i hi => decide_eq_true (hlt' i hi))
    have hsp : samplePoints route_coords
        = (sampleIndices n).filterMap (fun i => route_coords.get? i) := by
      unfold samplePoints
      rw [hfilter, hrc]
    refine ⟨hsp, ?_, ?_⟩
    · rw [hsp, filterMap_get?_length route_coords _ (by rw [← hrc] at hlt ⊢; exact hlt')]
    · intro j
      rw [hsp, filterMap_get?_get? route_coords _ (by rw [← hrc] at hlt ⊢; exact hlt') j]

/-- A 19-node route used as concrete input. -/
def coords19 : List Coord := (List.range 19).map (fun i : ℕ => ⟨(i : ℚ), 0, 0⟩)

/-- Counterexample to the sample-count part of C7 as stated: with 19
nodes the stride max(1, 19 // 10) is 1, so all 19 nodes are sampled —
more than the claimed bound of approximately 11. -/
theorem C7_analyzer_sampling_counterexample :
    (samplePoints coords19).length = 19 ∧ ¬ ((samplePoints coords19).length ≤ 11) := by
  constructor
  · rfl
  · intro h
    have : (19 : ℕ) ≤ 11 := h
    omega

/-- Witness for the amended C7 on a 50-node route: stride 5, samples at
0, 5, ..., 45, ten points in total. -/
theorem C7_analyzer_sampling_witness :
    sampleIndices 50 = [0, 5, 10, 15, 20, 25, 30, 35, 40, 45] ∧
    (samplePoints coords50).length = 10 := by
  have hl : coords50.length = 50 := by
    unfold coords50
    rw [List.length_map, List.length_range]
  have h := C7_analyzer_sampling 50 (by norm_num)
  constructor
  · rw [h.1]
    rfl
  · rw [(h.2.2.2.2 coords50 hl).2.1]
    rfl
